import Mathlib

/-!
# Goto API and mode routes

A shallow embedding of `src/modules/api/goto.js` (class `Goto`: the five
operations `post`, `hashtag`, `location`, `profile`, `login`) and of
`src/modules/routes/modes.js` (the exported table of modes).

The collaborators of `Goto` are kept abstract:

* `this.core.bot.goto(url)` is `Env.goto`, a function from the URL to a
  settlement (`NavResult.ok` or `NavResult.fails err`); every call is recorded
  in `World.navigated`;
* `this.lang.translate(key)` is `Env.translate`: the text that the template
  literal around the call evaluates to;
* `this.log` is a `Logger σ`: four methods, each a total update of a logger
  state `σ` (a logger method never throws and returns nothing that is used).
  `recorder` is the logger that stores every call in order, `silent` the one
  that does nothing.

JavaScript values are the type `JsVal`. A thrown value, or the rejection of the
promise an `async` method returns, is the `error` side of `Except JsVal`.
-/

namespace Goto

/-! ## JavaScript values -/

/-- The JavaScript values an identifier or a navigation failure can be:
`undefined`, `null`, a boolean, a number, a string, or an error object with its
`name` and `message`. `num n` is the Number value for the integer `n`, that is
the double nearest to `n` (`n` itself when `n` has magnitude below `2 ^ 53`).
Symbols and objects with user-defined conversions are not part of the model. -/
inductive JsVal where
  | undefined
  | null
  | bool (b : Bool)
  | num (n : Int)
  | str (s : String)
  | err (name message : String)
  deriving DecidableEq, Repr

/-! ### Text of a number

`Number::toString` on the Number value for an integer: the value is the integer
rounded to 53 significant bits; its text is the decimal with the fewest
significant digits that reads back as the same value, written in plain digits up
to 21 places and in exponent form beyond. -/

/-- Number of binary digits of `a`. -/
def bitLength (a : Nat) : Nat :=
  (Nat.toDigits 2 a).length

/-- The Number value for the natural number `a`: `a` rounded to 53 significant
bits, a tie going to the even neighbour; `none` stands for `Infinity`, the
result when the rounded value needs more than 1024 binary digits. -/
def roundToNumber (a : Nat) : Option Nat :=
  let e := if a < 2 ^ 53 then 0 else bitLength a - 53
  let q := a / 2 ^ e
  let r := a % 2 ^ e
  let q1 := if 2 ^ e < 2 * r ∨ (2 * r = 2 ^ e ∧ q % 2 = 1) then q + 1 else q
  if bitLength (q1 * 2 ^ e) ≤ 1024 then some (q1 * 2 ^ e) else none

/-- The decimal with at most `k` significant digits that reads back as the Number
value `x` of `nd` decimal places, if there is one; of two, the nearer to `x`, and
on a tie the even one. -/
def shortCandidate (x nd k : Nat) : Option Nat :=
  let p := 10 ^ (nd - k)
  let lo := x / p * p
  let hi := lo + p
  let okLo : Bool := roundToNumber lo == some x
  let okHi : Bool := roundToNumber hi == some x
  if okLo && okHi then
    if x - lo < hi - x then some lo
    else if hi - x < x - lo then some hi
    else if (x / p) % 2 = 0 then some lo else some hi
  else if okLo then some lo
  else if okHi then some hi
  else none

/-- The decimal with the fewest significant digits that reads back as the Number
value `x`; 17 digits always suffice. -/
def shortestDecimal (x : Nat) : Nat :=
  let nd := (Nat.toDigits 10 x).length
  match (List.range 17).filterMap (fun i => shortCandidate x nd (i + 1)) with
  | c :: _ => c
  | [] => x

/-- Layout of `Number::toString` for a positive integer `c` given by its shortest
digits: plain digits up to 21 places; beyond, the first digit, a point and the
other significant digits if there are any, then `e+` and the exponent. -/
def formatDecimal (c : Nat) : String :=
  let ds := Nat.toDigits 10 c
  if ds.length ≤ 21 then String.mk ds
  else
    match (ds.reverse.dropWhile (fun ch => ch == '0')).reverse with
    | [] => "0"
    | d :: rest =>
        String.mk (d :: (if rest.isEmpty then [] else '.' :: rest))
          ++ "e+" ++ toString (ds.length - 1)

/-- Text of the Number value for the integer `n`. Below `2 ^ 53` in magnitude
every integer is a Number value of at most 16 places and its text is its decimal
digits; beyond, the value is rounded and printed with its shortest digits. -/
def numberToString (n : Int) : String :=
  if n.natAbs < 2 ^ 53 then toString n
  else
    match roundToNumber n.natAbs with
    | none => if n < 0 then "-Infinity" else "Infinity"
    | some x => (if n < 0 then "-" else "") ++ formatDecimal (shortestDecimal x)

/-- Conversion done by a template literal on an interpolated value
(`Number::toString` for a number, `Error.prototype.toString` for an error
object). -/
def jsToString : JsVal → String
  | .undefined => "undefined"
  | .null => "null"
  | .bool true => "true"
  | .bool false => "false"
  | .num n => numberToString n
  | .str s => s
  | .err name message =>
      if name = "" then message
      else if message = "" then name
      else name ++ ": " ++ message

/-- Left-to-right scan of `String.prototype.replace` with a global
one-character pattern and the empty replacement: each occurrence of `c` is
dropped, every other character is copied. -/
def replaceGlobal (c : Char) : List Char → List Char
  | [] => []
  | x :: xs => if x = c then replaceGlobal c xs else x :: replaceGlobal c xs

/-- The string `s.replace(/c/g, "")`. -/
def stripMarker (c : Char) (s : String) : String :=
  String.mk (replaceGlobal c s.data)

/-- The method call `v.replace(/c/g, "")` on an arbitrary value, `name` being
the variable the call is made on. On a string it is `stripMarker`; on
`undefined` and `null` reading the property throws a `TypeError`; on every other
value the property `replace` is `undefined` and calling it throws a `TypeError`. -/
def callReplace (name : String) (c : Char) : JsVal → Except JsVal String
  | .str s => .ok (stripMarker c s)
  | .undefined =>
      .error (.err "TypeError" "Cannot read properties of undefined (reading \x27replace\x27)")
  | .null =>
      .error (.err "TypeError" "Cannot read properties of null (reading \x27replace\x27)")
  | _ => .error (.err "TypeError" (name ++ ".replace is not a function"))

/-! ## Collaborators -/

/-- Settlement of the promise returned by `this.core.bot.goto(url)`. -/
inductive NavResult where
  | ok
  | fails (error : JsVal)
  deriving DecidableEq, Repr

/-- The translator and the browser as seen by `Goto`. -/
structure Env where
  translate : String → String
  goto : String → NavResult

/-- The four methods of `this.log` used by `Goto`, as updates of a logger
state. -/
structure Logger (σ : Type) where
  info : String → String → σ → σ
  error : String → String → σ → σ
  docs : String → String → σ → σ
  stackoverflow : String → String → JsVal → σ → σ

/-- One call of a logger method, with its arguments. -/
inductive LogCall where
  | info (tag message : String)
  | error (tag message : String)
  | docs (domain tag : String)
  | stackoverflow (tag subsystem : String) (error : JsVal)
  deriving DecidableEq, Repr

/-- The logger that stores its calls, oldest first. -/
def recorder : Logger (List LogCall) where
  info tag message log := log ++ [.info tag message]
  error tag message log := log ++ [.error tag message]
  docs domain tag log := log ++ [.docs domain tag]
  stackoverflow tag subsystem error log := log ++ [.stackoverflow tag subsystem error]

/-- The logger that does nothing. -/
def silent : Logger Unit where
  info _ _ u := u
  error _ _ u := u
  docs _ _ u := u
  stackoverflow _ _ _ u := u

/-- What an operation can change: the logger state and the list of URLs passed
to `this.core.bot.goto`, oldest first. -/
structure World (σ : Type) where
  log : σ
  navigated : List String

/-- The object literal `response`: `error` is `none` while the field is absent. -/
structure Response where
  status : Bool
  error : Option JsVal := none
  deriving DecidableEq, Repr

/-- Reading `response.error`: an absent field reads as `undefined`. -/
def Response.readError (r : Response) : JsVal :=
  r.error.getD .undefined

/-! ## The effect monad -/

/-- A computation that may throw a `JsVal` and changes the `World`; the changes
made before a throw are kept. -/
def Js (σ : Type) (α : Type) : Type :=
  World σ → Except JsVal α × World σ

instance (σ : Type) : Monad (Js σ) where
  pure a := fun w => (.ok a, w)
  bind x f := fun w =>
    match x w with
    | (.ok a, w1) => f a w1
    | (.error e, w1) => (.error e, w1)

instance (σ : Type) : MonadExcept JsVal (Js σ) where
  throw e := fun w => (.error e, w)
  tryCatch x handler := fun w =>
    match x w with
    | (.ok a, w1) => (.ok a, w1)
    | (.error e, w1) => handler e w1

/-- Lift a pure step that may throw. -/
def liftExcept {σ α : Type} (x : Except JsVal α) : Js σ α :=
  fun w => (x, w)

/-- `await this.core.bot.goto(url)`: records the URL, then settles as `Env.goto`
says; a rejected promise is a throw. -/
def botGoto {σ : Type} (env : Env) (url : String) : Js σ Unit :=
  fun w =>
    let w1 : World σ := { w with navigated := w.navigated ++ [url] }
    match env.goto url with
    | .ok => (.ok (), w1)
    | .fails e => (.error e, w1)

/-- A logger call. -/
def logWith {σ : Type} (f : σ → σ) : Js σ Unit :=
  fun w => (.ok (), { w with log := f w.log })

/-! ## The five operations of `Goto` -/

/-- `Goto.post(id_hash)`. -/
def post {σ : Type} (L : Logger σ) (env : Env) (id_hash : JsVal) : Js σ Response := do
  let tag := "goto::post()"
  logWith (L.info tag (env.translate "try_goto_post_page"))
  let mut response : Response := { status := false }
  try
    botGoto env ("https://www.facebook.com/p/" ++ jsToString id_hash ++ "/")
    response := { response with status := true }
  catch err =>
    response := { response with status := false }
    response := { response with error := some err }
  if response.status then
    logWith (L.info tag (env.translate "post_id" ++ ": " ++ jsToString id_hash))
    logWith (L.info tag (env.translate "done"))
  else
    logWith (L.error tag (jsToString response.readError))
    logWith (L.docs "api" tag)
    logWith (L.stackoverflow tag "puppeteer" response.readError)
  return response

/-- `Goto.hashtag(hashtag)`: the `replace` call is inside the `try`. The variable
`hashtag` is read after the `try` on the success branch only, where it holds the
string without its markers. -/
def hashtag {σ : Type} (L : Logger σ) (env : Env) (hashtag0 : JsVal) : Js σ Response := do
  let tag := "goto::hashtag()"
  logWith (L.info tag (env.translate "try_goto_hashtag_page"))
  let mut hashtag := hashtag0
  let mut response : Response := { status := false }
  try
    hashtag := .str (← liftExcept (callReplace "hashtag" '#' hashtag))
    botGoto env ("https://www.facebook.com/explore/tags/" ++ jsToString hashtag ++ "/")
    response := { response with status := true }
  catch err =>
    response := { response with status := false }
    response := { response with error := some err }
  if response.status then
    logWith (L.info tag ("#" ++ jsToString hashtag))
    logWith (L.info tag (env.translate "done"))
  else
    logWith (L.error tag (jsToString response.readError))
    logWith (L.docs "api" tag)
    logWith (L.stackoverflow tag "puppeteer" response.readError)
  return response

/-- `Goto.location(gps)`. -/
def location {σ : Type} (L : Logger σ) (env : Env) (gps : JsVal) : Js σ Response := do
  let tag := "goto::location()"
  logWith (L.info tag (env.translate "try_goto_gps_page"))
  let mut response : Response := { status := false }
  try
    botGoto env ("https://www.facebook.com/explore/locations/" ++ jsToString gps ++ "/")
    response := { response with status := true }
  catch err =>
    response := { response with status := false }
    response := { response with error := some err }
  if response.status then
    logWith (L.info tag ("GPS ID: " ++ jsToString gps))
    logWith (L.info tag (env.translate "done"))
  else
    logWith (L.error tag (jsToString response.readError))
    logWith (L.docs "api" tag)
    logWith (L.stackoverflow tag "puppeteer" response.readError)
  return response

/-- `Goto.profile(nickname)`: the `replace` call is before the `try`. -/
def profile {σ : Type} (L : Logger σ) (env : Env) (nickname0 : JsVal) : Js σ Response := do
  let tag := "goto::profile()"
  logWith (L.info tag (env.translate "try_goto_profile_page"))
  let mut response : Response := { status := false }
  let nickname ← liftExcept (callReplace "nickname" '@' nickname0)
  try
    botGoto env ("https://www.facebook.com/" ++ nickname ++ "/")
    response := { response with status := true }
  catch err =>
    response := { response with status := false }
    response := { response with error := some err }
  if response.status then
    logWith (L.info tag ("@" ++ nickname))
    logWith (L.info tag (env.translate "done"))
  else
    logWith (L.error tag (jsToString response.readError))
    logWith (L.docs "api" tag)
    logWith (L.stackoverflow tag "puppeteer" response.readError)
  return response

/-- `Goto.login()`. -/
def login {σ : Type} (L : Logger σ) (env : Env) : Js σ Response := do
  let tag := "goto::login()"
  logWith (L.info tag (env.translate "try_goto_login_page"))
  let mut response : Response := { status := false }
  try
    botGoto env "https://www.facebook.com/accounts/login/"
    response := { response with status := true }
  catch err =>
    response := { response with status := false }
    response := { response with error := some err }
  if response.status then
    logWith (L.info tag (env.translate "done"))
  else
    logWith (L.error tag (jsToString response.readError))
    logWith (L.docs "api" tag)
    logWith (L.stackoverflow tag "puppeteer" response.readError)
  return response

/-! ## Running an operation -/

/-- What a caller observes of one call: the value returned or thrown, the logger
calls and the URLs navigated to. -/
structure Run where
  result : Except JsVal Response
  logs : List LogCall
  navigated : List String
  deriving Repr

/-- Run an operation built on the recording logger from an empty world. -/
def observe (op : Js (List LogCall) Response) : Run :=
  let r := op { log := [], navigated := [] }
  { result := r.1, logs := r.2.log, navigated := r.2.navigated }

/-- The value returned or thrown under an arbitrary logger `L` started in `s`. -/
def outcome {σ : Type} (op : Js σ Response) (s : σ) : Except JsVal Response :=
  (op { log := s, navigated := [] }).1

end Goto

/-! ## The table of modes (`src/modules/routes/modes.js`) -/

namespace Routes

/-- What reading a property of the exported object can give. -/
inductive Entry where
  /-- The module object loaded by `require(path)`. -/
  | required (path : String)
  /-- The member of `Object.prototype` with this name. -/
  | inherited (name : String)
  /-- The value `undefined`. -/
  | undefined
  deriving DecidableEq, Repr

/-- The failure the specification names for a key that is not registered. -/
inductive LookupError where
  | UnknownModeError
  deriving DecidableEq, Repr

/-- The own properties of `module.exports`, as written in the object literal. -/
def modes : List (String × Entry) :=
  [("Likemode_friendsfeed_realistic", .required "../modes/likemode_friendsfeed_realistic")]

/-- The property names an object literal inherits from `Object.prototype`. -/
def objectPrototypeNames : List String :=
  ["constructor", "__defineGetter__", "__defineSetter__", "hasOwnProperty",
   "__lookupGetter__", "__lookupSetter__", "isPrototypeOf", "propertyIsEnumerable",
   "toString", "valueOf", "__proto__", "toLocaleString"]

/-- The property read `modes[key]`, the only lookup `module.exports` offers: an
own property first, then `Object.prototype`, else `undefined`. Nothing is
thrown. -/
def lookup (key : String) : Except LookupError Entry :=
  match modes.lookup key with
  | some e => .ok e
  | none => if key ∈ objectPrototypeNames then .ok (.inherited key) else .ok .undefined

end Routes

/-! ## The normalization as the specification words it -/

namespace Goto

/-- The data model's sentence on identifiers, word for word: strip a single
leading marker character if present, keep the string otherwise. -/
def specStripLeadingMarker (c : Char) (s : String) : String :=
  match s.data with
  | x :: xs => if x = c then String.mk xs else s
  | [] => s

/-! ## How each operation runs

One lemma per operation and per way the `try` block can end, for an arbitrary
logger and starting world. -/

/-- An integer of magnitude below `2 ^ 53` prints as its decimal digits. -/
theorem numberToString_of_safe (n : Int) (h : n.natAbs < 2 ^ 53) :
    numberToString n = toString n := by
  unfold numberToString
  rw [if_pos h]

theorem replaceGlobal_eq_filter (c : Char) (l : List Char) :
    replaceGlobal c l = l.filter (fun x => x ≠ c) := by
  induction l with
  | nil => rfl
  | cons x xs ih =>
    by_cases hx : x = c
    · simp [replaceGlobal, hx, ih]
    · simp [replaceGlobal, hx, ih]

theorem stripMarker_eq_filter (c : Char) (s : String) :
    stripMarker c s = String.mk (s.data.filter (fun x => x ≠ c)) := by
  simp [stripMarker, replaceGlobal_eq_filter]

theorem post_run_ok {σ : Type} (L : Logger σ) (env : Env) (v : JsVal) (w : World σ)
    (h : env.goto ("https://www.facebook.com/p/" ++ jsToString v ++ "/") = .ok) :
    post L env v w =
      (.ok { status := true },
       { log := L.info "goto::post()" (env.translate "done")
                  (L.info "goto::post()" (env.translate "post_id" ++ ": " ++ jsToString v)
                    (L.info "goto::post()" (env.translate "try_goto_post_page") w.log)),
         navigated := w.navigated ++ ["https://www.facebook.com/p/" ++ jsToString v ++ "/"] }) := by
  simp [post, botGoto, logWith, h, bind, tryCatch, tryCatchThe, MonadExceptOf.tryCatch, pure]

theorem post_run_fails {σ : Type} (L : Logger σ) (env : Env) (v : JsVal) (w : World σ)
    (E : JsVal) (h : env.goto ("https://www.facebook.com/p/" ++ jsToString v ++ "/") = .fails E) :
    post L env v w =
      (.ok { status := false, error := some E },
       { log := L.stackoverflow "goto::post()" "puppeteer" E
                  (L.docs "api" "goto::post()"
                    (L.error "goto::post()" (jsToString E)
                      (L.info "goto::post()" (env.translate "try_goto_post_page") w.log))),
         navigated := w.navigated ++ ["https://www.facebook.com/p/" ++ jsToString v ++ "/"] }) := by
  simp [post, botGoto, logWith, h, bind, tryCatch, tryCatchThe, MonadExceptOf.tryCatch, pure,
    Response.readError]

theorem hashtag_run_ok {σ : Type} (L : Logger σ) (env : Env) (s : String) (w : World σ)
    (h : env.goto ("https://www.facebook.com/explore/tags/" ++ stripMarker '#' s ++ "/") = .ok) :
    hashtag L env (.str s) w =
      (.ok { status := true },
       { log := L.info "goto::hashtag()" (env.translate "done")
                  (L.info "goto::hashtag()" ("#" ++ stripMarker '#' s)
                    (L.info "goto::hashtag()" (env.translate "try_goto_hashtag_page") w.log)),
         navigated := w.navigated ++
           ["https://www.facebook.com/explore/tags/" ++ stripMarker '#' s ++ "/"] }) := by
  simp [hashtag, callReplace, liftExcept, jsToString, botGoto, logWith, h, bind, tryCatch,
    tryCatchThe, MonadExceptOf.tryCatch, pure]

theorem hashtag_run_fails {σ : Type} (L : Logger σ) (env : Env) (s : String) (w : World σ)
    (E : JsVal)
    (h : env.goto ("https://www.facebook.com/explore/tags/" ++ stripMarker '#' s ++ "/")
      = .fails E) :
    hashtag L env (.str s) w =
      (.ok { status := false, error := some E },
       { log := L.stackoverflow "goto::hashtag()" "puppeteer" E
                  (L.docs "api" "goto::hashtag()"
                    (L.error "goto::hashtag()" (jsToString E)
                      (L.info "goto::hashtag()" (env.translate "try_goto_hashtag_page") w.log))),
         navigated := w.navigated ++
           ["https://www.facebook.com/explore/tags/" ++ stripMarker '#' s ++ "/"] }) := by
  simp [hashtag, callReplace, liftExcept, jsToString, botGoto, logWith, h, bind, tryCatch,
    tryCatchThe, MonadExceptOf.tryCatch, pure, Response.readError]

theorem hashtag_run_throw {σ : Type} (L : Logger σ) (env : Env) (v : JsVal) (w : World σ)
    (E : JsVal) (h : callReplace "hashtag" '#' v = .error E) :
    hashtag L env v w =
      (.ok { status := false, error := some E },
       { log := L.stackoverflow "goto::hashtag()" "puppeteer" E
                  (L.docs "api" "goto::hashtag()"
                    (L.error "goto::hashtag()" (jsToString E)
                      (L.info "goto::hashtag()" (env.translate "try_goto_hashtag_page") w.log))),
         navigated := w.navigated }) := by
  simp [hashtag, h, liftExcept, logWith, bind, tryCatch, tryCatchThe, MonadExceptOf.tryCatch,
    pure, Response.readError]

theorem location_run_ok {σ : Type} (L : Logger σ) (env : Env) (v : JsVal) (w : World σ)
    (h : env.goto ("https://www.facebook.com/explore/locations/" ++ jsToString v ++ "/") = .ok) :
    location L env v w =
      (.ok { status := true },
       { log := L.info "goto::location()" (env.translate "done")
                  (L.info "goto::location()" ("GPS ID: " ++ jsToString v)
                    (L.info "goto::location()" (env.translate "try_goto_gps_page") w.log)),
         navigated := w.navigated ++
           ["https://www.facebook.com/explore/locations/" ++ jsToString v ++ "/"] }) := by
  simp [location, botGoto, logWith, h, bind, tryCatch, tryCatchThe, MonadExceptOf.tryCatch, pure]

theorem location_run_fails {σ : Type} (L : Logger σ) (env : Env) (v : JsVal) (w : World σ)
    (E : JsVal)
    (h : env.goto ("https://www.facebook.com/explore/locations/" ++ jsToString v ++ "/")
      = .fails E) :
    location L env v w =
      (.ok { status := false, error := some E },
       { log := L.stackoverflow "goto::location()" "puppeteer" E
                  (L.docs "api" "goto::location()"
                    (L.error "goto::location()" (jsToString E)
                      (L.info "goto::location()" (env.translate "try_goto_gps_page") w.log))),
         navigated := w.navigated ++
           ["https://www.facebook.com/explore/locations/" ++ jsToString v ++ "/"] }) := by
  simp [location, botGoto, logWith, h, bind, tryCatch, tryCatchThe, MonadExceptOf.tryCatch,
    pure, Response.readError]

theorem profile_run_ok {σ : Type} (L : Logger σ) (env : Env) (s : String) (w : World σ)
    (h : env.goto ("https://www.facebook.com/" ++ stripMarker '@' s ++ "/") = .ok) :
    profile L env (.str s) w =
      (.ok { status := true },
       { log := L.info "goto::profile()" (env.translate "done")
                  (L.info "goto::profile()" ("@" ++ stripMarker '@' s)
                    (L.info "goto::profile()" (env.translate "try_goto_profile_page") w.log)),
         navigated := w.navigated ++ ["https://www.facebook.com/" ++ stripMarker '@' s ++ "/"] }) := by
  simp [profile, callReplace, liftExcept, botGoto, logWith, h, bind, tryCatch, tryCatchThe,
    MonadExceptOf.tryCatch, pure]

theorem profile_run_fails {σ : Type} (L : Logger σ) (env : Env) (s : String) (w : World σ)
    (E : JsVal) (h : env.goto ("https://www.facebook.com/" ++ stripMarker '@' s ++ "/") = .fails E) :
    profile L env (.str s) w =
      (.ok { status := false, error := some E },
       { log := L.stackoverflow "goto::profile()" "puppeteer" E
                  (L.docs "api" "goto::profile()"
                    (L.error "goto::profile()" (jsToString E)
                      (L.info "goto::profile()" (env.translate "try_goto_profile_page") w.log))),
         navigated := w.navigated ++ ["https://www.facebook.com/" ++ stripMarker '@' s ++ "/"] }) := by
  simp [profile, callReplace, liftExcept, botGoto, logWith, h, bind, tryCatch, tryCatchThe,
    MonadExceptOf.tryCatch, pure, Response.readError]

theorem profile_run_throw {σ : Type} (L : Logger σ) (env : Env) (v : JsVal) (w : World σ)
    (E : JsVal) (h : callReplace "nickname" '@' v = .error E) :
    profile L env v w =
      (.error E,
       { log := L.info "goto::profile()" (env.translate "try_goto_profile_page") w.log,
         navigated := w.navigated }) := by
  simp [profile, h, liftExcept, logWith, bind]

theorem login_run_ok {σ : Type} (L : Logger σ) (env : Env) (w : World σ)
    (h : env.goto "https://www.facebook.com/accounts/login/" = .ok) :
    login L env w =
      (.ok { status := true },
       { log := L.info "goto::login()" (env.translate "done")
                  (L.info "goto::login()" (env.translate "try_goto_login_page") w.log),
         navigated := w.navigated ++ ["https://www.facebook.com/accounts/login/"] }) := by
  simp [login, botGoto, logWith, h, bind, tryCatch, tryCatchThe, MonadExceptOf.tryCatch, pure]

theorem login_run_fails {σ : Type} (L : Logger σ) (env : Env) (w : World σ)
    (E : JsVal) (h : env.goto "https://www.facebook.com/accounts/login/" = .fails E) :
    login L env w =
      (.ok { status := false, error := some E },
       { log := L.stackoverflow "goto::login()" "puppeteer" E
                  (L.docs "api" "goto::login()"
                    (L.error "goto::login()" (jsToString E)
                      (L.info "goto::login()" (env.translate "try_goto_login_page") w.log))),
         navigated := w.navigated ++ ["https://www.facebook.com/accounts/login/"] }) := by
  simp [login, botGoto, logWith, h, bind, tryCatch, tryCatchThe, MonadExceptOf.tryCatch, pure,
    Response.readError]

/-- Each of `post`, `hashtag`, `location` and `login` returns a response for every
value of its argument and every behaviour of the browser. -/
theorem post_hashtag_location_login_return (env : Env) (v : JsVal) :
    (∃ r, (observe (post recorder env v)).result = .ok r) ∧
    (∃ r, (observe (hashtag recorder env v)).result = .ok r) ∧
    (∃ r, (observe (location recorder env v)).result = .ok r) ∧
    (∃ r, (observe (login recorder env)).result = .ok r) := by
  refine ⟨?_, ?_, ?_, ?_⟩
  · cases h : env.goto ("https://www.facebook.com/p/" ++ jsToString v ++ "/") with
    | ok => simp [observe, post_run_ok _ _ _ _ h]
    | fails E => simp [observe, post_run_fails _ _ _ _ _ h]
  · cases hr : callReplace "hashtag" '#' v with
    | error E => simp [observe, hashtag_run_throw _ _ _ _ _ hr]
    | ok t =>
      cases v with
      | str s =>
        cases h : env.goto ("https://www.facebook.com/explore/tags/" ++ stripMarker '#' s ++ "/") with
        | ok => simp [observe, hashtag_run_ok _ _ _ _ h]
        | fails E => simp [observe, hashtag_run_fails _ _ _ _ _ h]
      | undefined => simp [callReplace] at hr
      | null => simp [callReplace] at hr
      | bool b => simp [callReplace] at hr
      | num n => simp [callReplace] at hr
      | err a b => simp [callReplace] at hr
  · cases h : env.goto ("https://www.facebook.com/explore/locations/" ++ jsToString v ++ "/") with
    | ok => simp [observe, location_run_ok _ _ _ _ h]
    | fails E => simp [observe, location_run_fails _ _ _ _ _ h]
  · cases h : env.goto "https://www.facebook.com/accounts/login/" with
    | ok => simp [observe, login_run_ok _ _ _ h]
    | fails E => simp [observe, login_run_fails _ _ _ _ h]

/-- The one URL `post` passes to the browser, whatever the browser answers. -/
theorem post_navigated (env : Env) (v : JsVal) :
    (observe (post recorder env v)).navigated
      = ["https://www.facebook.com/p/" ++ jsToString v ++ "/"] := by
  cases h : env.goto ("https://www.facebook.com/p/" ++ jsToString v ++ "/") with
  | ok => simp [observe, post_run_ok _ _ _ _ h]
  | fails E => simp [observe, post_run_fails _ _ _ _ _ h]

/-- The one URL `hashtag` passes to the browser, whatever the browser answers. -/
theorem hashtag_navigated (env : Env) (s : String) :
    (observe (hashtag recorder env (.str s))).navigated
      = ["https://www.facebook.com/explore/tags/" ++ stripMarker '#' s ++ "/"] := by
  cases h : env.goto ("https://www.facebook.com/explore/tags/" ++ stripMarker '#' s ++ "/") with
  | ok => simp [observe, hashtag_run_ok _ _ _ _ h]
  | fails E => simp [observe, hashtag_run_fails _ _ _ _ _ h]

/-- The one URL `location` passes to the browser, whatever the browser answers. -/
theorem location_navigated (env : Env) (v : JsVal) :
    (observe (location recorder env v)).navigated
      = ["https://www.facebook.com/explore/locations/" ++ jsToString v ++ "/"] := by
  cases h : env.goto ("https://www.facebook.com/explore/locations/" ++ jsToString v ++ "/") with
  | ok => simp [observe, location_run_ok _ _ _ _ h]
  | fails E => simp [observe, location_run_fails _ _ _ _ _ h]

/-- The one URL `profile` passes to the browser, whatever the browser answers. -/
theorem profile_navigated (env : Env) (s : String) :
    (observe (profile recorder env (.str s))).navigated
      = ["https://www.facebook.com/" ++ stripMarker '@' s ++ "/"] := by
  cases h : env.goto ("https://www.facebook.com/" ++ stripMarker '@' s ++ "/") with
  | ok => simp [observe, profile_run_ok _ _ _ _ h]
  | fails E => simp [observe, profile_run_fails _ _ _ _ _ h]

/-- The one URL `login` passes to the browser, whatever the browser answers. -/
theorem login_navigated (env : Env) :
    (observe (login recorder env)).navigated
      = ["https://www.facebook.com/accounts/login/"] := by
  cases h : env.goto "https://www.facebook.com/accounts/login/" with
  | ok => simp [observe, login_run_ok _ _ _ h]
  | fails E => simp [observe, login_run_fails _ _ _ _ h]

/-- A marker put in front of a string is dropped with the others. -/
theorem stripMarker_cons (c : Char) (s : String) :
    stripMarker c (String.mk [c] ++ s) = stripMarker c s := by
  simp [stripMarker, replaceGlobal]

/-- Stripping twice is stripping once. -/
theorem stripMarker_idem (c : Char) (s : String) :
    stripMarker c (stripMarker c s) = stripMarker c s := by
  simp [stripMarker_eq_filter]

/-- A string without the marker is left as it is. -/
theorem stripMarker_of_not_mem (c : Char) (s : String) (h : c ∉ s.data) :
    stripMarker c s = s := by
  rw [stripMarker_eq_filter]
  have hf : s.data.filter (fun x => x ≠ c) = s.data := by
    rw [List.filter_eq_self]
    intro a ha
    have hne : a ≠ c := fun hac => h (hac ▸ ha)
    simpa using hne
  rw [hf]

/-- When the marker occurs at most once, in front, dropping every marker is
dropping the leading one. -/
theorem stripMarker_eq_specStripLeadingMarker (c : Char) (s : String)
    (h : c ∉ s.data.tail) : stripMarker c s = specStripLeadingMarker c s := by
  cases s with
  | mk l =>
    cases l with
    | nil => simp [stripMarker, replaceGlobal, specStripLeadingMarker]
    | cons x xs =>
      have hxs : stripMarker c (String.mk xs) = String.mk xs :=
        stripMarker_of_not_mem c (String.mk xs) (by simpa using h)
      by_cases hx : x = c
      · simpa [stripMarker, replaceGlobal, specStripLeadingMarker, hx] using hxs
      · have hall : c ∉ (String.mk (x :: xs)).data := by
          simp only [List.mem_cons, not_or]
          exact ⟨fun hc => hx hc.symm, by simpa using h⟩
        simpa [specStripLeadingMarker, hx] using stripMarker_of_not_mem c _ hall

/-! ## The claims -/

/-- C1: for each of the five operations and every string identifier (for
`location` also every integer id), when the browser fails with `E` the operation
returns a response whose `status` is false and whose `error` is `E` itself. -/
theorem navigation_failure_is_returned (env : Env) (E : JsVal)
    (h : ∀ url, env.goto url = .fails E) (s : String) (n : Int) :
    (observe (post recorder env (.str s))).result = .ok { status := false, error := some E } ∧
    (observe (hashtag recorder env (.str s))).result = .ok { status := false, error := some E } ∧
    (observe (location recorder env (.num n))).result = .ok { status := false, error := some E } ∧
    (observe (location recorder env (.str s))).result = .ok { status := false, error := some E } ∧
    (observe (profile recorder env (.str s))).result = .ok { status := false, error := some E } ∧
    (observe (login recorder env)).result = .ok { status := false, error := some E } := by
  refine ⟨?_, ?_, ?_, ?_, ?_, ?_⟩
  · simp [observe, post_run_fails _ _ _ _ _ (h _)]
  · simp [observe, hashtag_run_fails _ _ _ _ _ (h _)]
  · simp [observe, location_run_fails _ _ _ _ _ (h _)]
  · simp [observe, location_run_fails _ _ _ _ _ (h _)]
  · simp [observe, profile_run_fails _ _ _ _ _ (h _)]
  · simp [observe, login_run_fails _ _ _ _ (h _)]

/-- Witness of C1: `login` with a browser that fails with `"net::ERR_TIMED_OUT"`. -/
theorem navigation_failure_is_returned_witness :
    (∀ url, (Env.mk id (fun _ => NavResult.fails (.str "net::ERR_TIMED_OUT"))).goto url
        = .fails (.str "net::ERR_TIMED_OUT")) ∧
    (observe (login recorder
        (Env.mk id (fun _ => NavResult.fails (.str "net::ERR_TIMED_OUT"))))).result
      = .ok { status := false, error := some (.str "net::ERR_TIMED_OUT") } :=
  ⟨fun _ => rfl,
   (navigation_failure_is_returned
      (Env.mk id (fun _ => NavResult.fails (.str "net::ERR_TIMED_OUT")))
      (.str "net::ERR_TIMED_OUT") (fun _ => rfl) "" 0).2.2.2.2.2⟩

/-- C2: for each of the five operations and every string identifier (for
`location` also every integer id), when the browser succeeds the operation
returns a response whose `status` is true and that has no `error` field. -/
theorem navigation_success_is_returned (env : Env)
    (h : ∀ url, env.goto url = .ok) (s : String) (n : Int) :
    (observe (post recorder env (.str s))).result = .ok { status := true, error := none } ∧
    (observe (hashtag recorder env (.str s))).result = .ok { status := true, error := none } ∧
    (observe (location recorder env (.num n))).result = .ok { status := true, error := none } ∧
    (observe (location recorder env (.str s))).result = .ok { status := true, error := none } ∧
    (observe (profile recorder env (.str s))).result = .ok { status := true, error := none } ∧
    (observe (login recorder env)).result = .ok { status := true, error := none } := by
  refine ⟨?_, ?_, ?_, ?_, ?_, ?_⟩
  · simp [observe, post_run_ok _ _ _ _ (h _)]
  · simp [observe, hashtag_run_ok _ _ _ _ (h _)]
  · simp [observe, location_run_ok _ _ _ _ (h _)]
  · simp [observe, location_run_ok _ _ _ _ (h _)]
  · simp [observe, profile_run_ok _ _ _ _ (h _)]
  · simp [observe, login_run_ok _ _ _ (h _)]

/-- Witness of C2: `location` with the id 123456789 and a browser that succeeds. -/
theorem navigation_success_is_returned_witness :
    (∀ url, (Env.mk id (fun _ => NavResult.ok)).goto url = .ok) ∧
    (observe (location recorder (Env.mk id (fun _ => NavResult.ok)) (.num 123456789))).result
      = .ok { status := true, error := none } :=
  ⟨fun _ => rfl,
   (navigation_success_is_returned (Env.mk id (fun _ => NavResult.ok))
      (fun _ => rfl) "" 123456789).2.2.1⟩

/-- C3 (the code at the failing input): `profile` called with a number, or with
no argument, throws a `TypeError` to its caller before any navigation, whatever
the browser does; `hashtag` called with the same values returns a response that
carries the `TypeError`. -/
theorem profile_throws_on_non_string (env : Env) :
    (observe (profile recorder env (.num 123456789))).result
      = .error (.err "TypeError" "nickname.replace is not a function") ∧
    (observe (profile recorder env .undefined)).result
      = .error (.err "TypeError"
          "Cannot read properties of undefined (reading \x27replace\x27)") ∧
    (observe (profile recorder env (.num 123456789))).navigated = [] ∧
    (observe (hashtag recorder env (.num 123456789))).result
      = .ok { status := false,
              error := some (.err "TypeError" "hashtag.replace is not a function") } ∧
    (observe (hashtag recorder env .undefined)).result
      = .ok { status := false,
              error := some (.err "TypeError"
                "Cannot read properties of undefined (reading \x27replace\x27)") } := by
  refine ⟨?_, ?_, ?_, ?_, ?_⟩
  · simp [observe, profile_run_throw _ _ (.num 123456789) _ _ rfl]
  · simp [observe, profile_run_throw _ _ .undefined _ _ rfl]
  · simp [observe, profile_run_throw _ _ (.num 123456789) _ _ rfl]
  · simp [observe, hashtag_run_throw _ _ (.num 123456789) _ _ rfl]
  · simp [observe, hashtag_run_throw _ _ .undefined _ _ rfl]

/-- C4: for every string identifier (for `location` also every integer id) and
whatever the browser answers, each operation passes exactly one URL to the
browser: the template of its kind with the identifier put in as it is, after
every `#` (hashtag) or every `@` (profile) has been removed. An integer id is put
in as the text of its Number value, which is its decimal digits when its
magnitude is below `2 ^ 53`; `location(123456789)` navigates to
`.../explore/locations/123456789/`. -/
theorem navigates_exactly_once_to_template (env : Env) (s : String) (n : Int) :
    (observe (post recorder env (.str s))).navigated
      = ["https://www.facebook.com/p/" ++ s ++ "/"] ∧
    (observe (hashtag recorder env (.str s))).navigated
      = ["https://www.facebook.com/explore/tags/"
          ++ String.mk (s.data.filter (fun x => x ≠ '#')) ++ "/"] ∧
    (observe (location recorder env (.num n))).navigated
      = ["https://www.facebook.com/explore/locations/" ++ numberToString n ++ "/"] ∧
    (n.natAbs < 2 ^ 53 →
      (observe (location recorder env (.num n))).navigated
        = ["https://www.facebook.com/explore/locations/" ++ toString n ++ "/"]) ∧
    (observe (location recorder env (.str s))).navigated
      = ["https://www.facebook.com/explore/locations/" ++ s ++ "/"] ∧
    (observe (profile recorder env (.str s))).navigated
      = ["https://www.facebook.com/" ++ String.mk (s.data.filter (fun x => x ≠ '@')) ++ "/"] ∧
    (observe (login recorder env)).navigated
      = ["https://www.facebook.com/accounts/login/"] ∧
    (observe (location recorder env (.num 123456789))).navigated
      = ["https://www.facebook.com/explore/locations/123456789/"] ∧
    (observe (location recorder env (.num 9223372036854775808))).navigated
      = ["https://www.facebook.com/explore/locations/9223372036854776000/"] ∧
    (observe (location recorder env (.num 1000000000000000000000))).navigated
      = ["https://www.facebook.com/explore/locations/1e+21/"] := by
  refine ⟨?_, ?_, ?_, ?_, ?_, ?_, ?_, ?_, ?_, ?_⟩
  · rw [post_navigated]; rfl
  · rw [hashtag_navigated, stripMarker_eq_filter]
  · rw [location_navigated]; rfl
  · intro hn
    rw [location_navigated]
    simp only [jsToString, numberToString_of_safe n hn]
  · rw [location_navigated]; rfl
  · rw [profile_navigated, stripMarker_eq_filter]
  · exact login_navigated env
  · rw [location_navigated]; decide
  · rw [location_navigated]; decide
  · rw [location_navigated]; decide

/-- Witness of C4: the id 123456789 has magnitude below `2 ^ 53`. -/
theorem navigates_exactly_once_to_template_witness :
    (123456789 : Int).natAbs < 2 ^ 53 ∧
    (observe (location recorder (Env.mk id (fun _ => NavResult.ok)) (.num 123456789))).navigated
      = ["https://www.facebook.com/explore/locations/" ++ toString (123456789 : Int) ++ "/"] :=
  ⟨by decide,
   (navigates_exactly_once_to_template (Env.mk id (fun _ => NavResult.ok)) ""
      123456789).2.2.2.1 (by decide)⟩

/-- Counterexample to C5: `hashtag("a#b")` navigates to `.../explore/tags/ab/`,
not to the URL built from `a#b` with only a leading `#` stripped; `profile("a@b")`
likewise navigates to `.../ab/`. -/
theorem inner_marker_is_not_kept :
    (observe (hashtag recorder (Env.mk id (fun _ => NavResult.ok)) (.str "a#b"))).navigated
      = ["https://www.facebook.com/explore/tags/ab/"] ∧
    (observe (hashtag recorder (Env.mk id (fun _ => NavResult.ok)) (.str "a#b"))).navigated
      ≠ ["https://www.facebook.com/explore/tags/" ++ specStripLeadingMarker '#' "a#b" ++ "/"] ∧
    (observe (profile recorder (Env.mk id (fun _ => NavResult.ok)) (.str "a@b"))).navigated
      = ["https://www.facebook.com/ab/"] ∧
    (observe (profile recorder (Env.mk id (fun _ => NavResult.ok)) (.str "a@b"))).navigated
      ≠ ["https://www.facebook.com/" ++ specStripLeadingMarker '@' "a@b" ++ "/"] := by
  decide

/-- C5 as amended: for every string `s` the identifier `hashtag` puts in its URL
is `s` with every `#` removed, and the one `profile` puts in its URL is `s` with
every `@` removed; when `s` has no marker after its first character this is `s`
with one leading marker removed if `s` starts with it, and `s` itself otherwise. -/
theorem every_marker_is_removed (env : Env) (s : String) :
    (observe (hashtag recorder env (.str s))).navigated
      = ["https://www.facebook.com/explore/tags/"
          ++ String.mk (s.data.filter (fun x => x ≠ '#')) ++ "/"] ∧
    (observe (profile recorder env (.str s))).navigated
      = ["https://www.facebook.com/" ++ String.mk (s.data.filter (fun x => x ≠ '@')) ++ "/"] ∧
    ('#' ∉ s.data.tail →
      String.mk (s.data.filter (fun x => x ≠ '#')) = specStripLeadingMarker '#' s) ∧
    ('@' ∉ s.data.tail →
      String.mk (s.data.filter (fun x => x ≠ '@')) = specStripLeadingMarker '@' s) := by
  refine ⟨?_, ?_, ?_, ?_⟩
  · rw [hashtag_navigated, stripMarker_eq_filter]
  · rw [profile_navigated, stripMarker_eq_filter]
  · intro h
    rw [← stripMarker_eq_filter]
    exact stripMarker_eq_specStripLeadingMarker '#' s h
  · intro h
    rw [← stripMarker_eq_filter]
    exact stripMarker_eq_specStripLeadingMarker '@' s h

/-- Witness of C5 as amended: `"#funny"` has no `#` and no `@` after its first
character. -/
theorem every_marker_is_removed_witness :
    '#' ∉ ("#funny" : String).data.tail ∧ '@' ∉ ("#funny" : String).data.tail ∧
    String.mk (("#funny" : String).data.filter (fun x => x ≠ '#'))
      = specStripLeadingMarker '#' "#funny" ∧
    String.mk (("#funny" : String).data.filter (fun x => x ≠ '@'))
      = specStripLeadingMarker '@' "#funny" :=
  ⟨by decide, by decide,
   (every_marker_is_removed (Env.mk id (fun _ => NavResult.ok)) "#funny").2.2.1 (by decide),
   (every_marker_is_removed (Env.mk id (fun _ => NavResult.ok)) "#funny").2.2.2 (by decide)⟩

/-- C6: for every string `s` and whatever the browser answers, `hashtag` called
with `"#"` followed by `s` navigates to the same URL as called with `s`, and
`profile` called with `"@"` followed by `s` navigates to the same URL as called
with `s`; `"#funny"` and `"funny"` both give `.../explore/tags/funny/`, `"@john"`
and `"john"` both give `.../john/`. -/
theorem leading_marker_gives_same_url (env : Env) (s : String) :
    (observe (hashtag recorder env (.str ("#" ++ s)))).navigated
      = (observe (hashtag recorder env (.str s))).navigated ∧
    (observe (profile recorder env (.str ("@" ++ s)))).navigated
      = (observe (profile recorder env (.str s))).navigated ∧
    (observe (hashtag recorder env (.str "#funny"))).navigated
      = ["https://www.facebook.com/explore/tags/funny/"] ∧
    (observe (hashtag recorder env (.str "funny"))).navigated
      = ["https://www.facebook.com/explore/tags/funny/"] ∧
    (observe (profile recorder env (.str "@john"))).navigated
      = ["https://www.facebook.com/john/"] ∧
    (observe (profile recorder env (.str "john"))).navigated
      = ["https://www.facebook.com/john/"] := by
  refine ⟨?_, ?_, ?_, ?_, ?_, ?_⟩
  · rw [hashtag_navigated, hashtag_navigated]
    exact congrArg (fun t => ["https://www.facebook.com/explore/tags/" ++ t ++ "/"])
      (stripMarker_cons '#' s)
  · rw [profile_navigated, profile_navigated]
    exact congrArg (fun t => ["https://www.facebook.com/" ++ t ++ "/"])
      (stripMarker_cons '@' s)
  · rw [hashtag_navigated]; decide
  · rw [hashtag_navigated]; decide
  · rw [profile_navigated]; decide
  · rw [profile_navigated]; decide

/-- C7: normalization is idempotent: for every string `s`, stripping the markers
of the already stripped identifier gives the same identifier, so `hashtag` (resp.
`profile`) navigates to the same URL from the stripped identifier as from `s`;
an identifier with no marker character is left unchanged. -/
theorem normalization_is_idempotent (env : Env) (s : String) :
    stripMarker '#' (stripMarker '#' s) = stripMarker '#' s ∧
    stripMarker '@' (stripMarker '@' s) = stripMarker '@' s ∧
    (observe (hashtag recorder env (.str (stripMarker '#' s)))).navigated
      = (observe (hashtag recorder env (.str s))).navigated ∧
    (observe (profile recorder env (.str (stripMarker '@' s)))).navigated
      = (observe (profile recorder env (.str s))).navigated ∧
    ('#' ∉ s.data → stripMarker '#' s = s) ∧
    ('@' ∉ s.data → stripMarker '@' s = s) := by
  refine ⟨stripMarker_idem '#' s, stripMarker_idem '@' s, ?_, ?_,
    stripMarker_of_not_mem '#' s, stripMarker_of_not_mem '@' s⟩
  · rw [hashtag_navigated, hashtag_navigated, stripMarker_idem]
  · rw [profile_navigated, profile_navigated, stripMarker_idem]

/-- Witness of C7: `"funny"` contains neither `#` nor `@`. -/
theorem normalization_is_idempotent_witness :
    '#' ∉ ("funny" : String).data ∧ '@' ∉ ("funny" : String).data ∧
    stripMarker '#' "funny" = "funny" ∧ stripMarker '@' "funny" = "funny" :=
  ⟨by decide, by decide,
   (normalization_is_idempotent (Env.mk id (fun _ => NavResult.ok)) "funny").2.2.2.2.1
     (by decide),
   (normalization_is_idempotent (Env.mk id (fun _ => NavResult.ok)) "funny").2.2.2.2.2
     (by decide)⟩

/-- Counterexample to C9: when the browser succeeds, `login` logs one line after
its intent line, the translated `done`; there is no second line. -/
theorem login_success_logs_one_line :
    (observe (login recorder (Env.mk id (fun _ => NavResult.ok)))).result
      = .ok { status := true, error := none } ∧
    (observe (login recorder (Env.mk id (fun _ => NavResult.ok)))).logs
      = [.info "goto::login()" "try_goto_login_page", .info "goto::login()" "done"] ∧
    (observe (login recorder (Env.mk id (fun _ => NavResult.ok)))).logs.tail.length ≠ 2 := by
  exact ⟨rfl, by decide, by decide⟩

/-- C9 as amended: when the browser succeeds, `post`, `hashtag`, `location` and
`profile` log after the intent line exactly two informational lines, the
identifier echoed and then the translated `done`, and `login` logs exactly one,
the translated `done`; no error-level or diagnostic line is logged. An integer
id is echoed as the text of its Number value, which is its decimal digits when
its magnitude is below `2 ^ 53`. -/
theorem success_log_lines (env : Env) (h : ∀ url, env.goto url = .ok)
    (s : String) (n : Int) :
    (observe (post recorder env (.str s))).logs
      = [.info "goto::post()" (env.translate "try_goto_post_page"),
         .info "goto::post()" (env.translate "post_id" ++ ": " ++ s),
         .info "goto::post()" (env.translate "done")] ∧
    (observe (hashtag recorder env (.str s))).logs
      = [.info "goto::hashtag()" (env.translate "try_goto_hashtag_page"),
         .info "goto::hashtag()" ("#" ++ stripMarker '#' s),
         .info "goto::hashtag()" (env.translate "done")] ∧
    (observe (location recorder env (.num n))).logs
      = [.info "goto::location()" (env.translate "try_goto_gps_page"),
         .info "goto::location()" ("GPS ID: " ++ numberToString n),
         .info "goto::location()" (env.translate "done")] ∧
    (n.natAbs < 2 ^ 53 →
      (observe (location recorder env (.num n))).logs
        = [.info "goto::location()" (env.translate "try_goto_gps_page"),
           .info "goto::location()" ("GPS ID: " ++ toString n),
           .info "goto::location()" (env.translate "done")]) ∧
    (observe (location recorder env (.str s))).logs
      = [.info "goto::location()" (env.translate "try_goto_gps_page"),
         .info "goto::location()" ("GPS ID: " ++ s),
         .info "goto::location()" (env.translate "done")] ∧
    (observe (profile recorder env (.str s))).logs
      = [.info "goto::profile()" (env.translate "try_goto_profile_page"),
         .info "goto::profile()" ("@" ++ stripMarker '@' s),
         .info "goto::profile()" (env.translate "done")] ∧
    (observe (login recorder env)).logs
      = [.info "goto::login()" (env.translate "try_goto_login_page"),
         .info "goto::login()" (env.translate "done")] ∧
    (observe (location recorder env (.num 9223372036854775808))).logs
      = [.info "goto::location()" (env.translate "try_goto_gps_page"),
         .info "goto::location()" "GPS ID: 9223372036854776000",
         .info "goto::location()" (env.translate "done")] := by
  refine ⟨?_, ?_, ?_, ?_, ?_, ?_, ?_, ?_⟩
  · simp [observe, post_run_ok _ _ _ _ (h _), recorder, jsToString]
  · simp [observe, hashtag_run_ok _ _ _ _ (h _), recorder]
  · simp [observe, location_run_ok _ _ _ _ (h _), recorder, jsToString]
  · intro hn
    simp [observe, location_run_ok _ _ _ _ (h _), recorder, jsToString,
      numberToString_of_safe n hn]
  · simp [observe, location_run_ok _ _ _ _ (h _), recorder, jsToString]
  · simp [observe, profile_run_ok _ _ _ _ (h _), recorder]
  · simp [observe, login_run_ok _ _ _ (h _), recorder]
  · have hp : jsToString (.num 9223372036854775808) = "9223372036854776000" := by decide
    have hr := location_run_ok recorder env (.num 9223372036854775808)
      { log := [], navigated := [] } (h _)
    rw [hp] at hr
    simp only [observe, hr]
    simp only [recorder, List.nil_append, List.cons_append, List.cons.injEq, and_true, true_and,
      LogCall.info.injEq]
    decide

/-- Witness of C9 as amended: `hashtag("#funny")` and `location(123456789)` with a
browser that succeeds. -/
theorem success_log_lines_witness :
    (∀ url, (Env.mk id (fun _ => NavResult.ok)).goto url = .ok) ∧
    (123456789 : Int).natAbs < 2 ^ 53 ∧
    (observe (hashtag recorder (Env.mk id (fun _ => NavResult.ok)) (.str "#funny"))).logs
      = [.info "goto::hashtag()" "try_goto_hashtag_page",
         .info "goto::hashtag()" ("#" ++ stripMarker '#' "#funny"),
         .info "goto::hashtag()" "done"] ∧
    (observe (location recorder (Env.mk id (fun _ => NavResult.ok)) (.num 123456789))).logs
      = [.info "goto::location()" "try_goto_gps_page",
         .info "goto::location()" ("GPS ID: " ++ toString (123456789 : Int)),
         .info "goto::location()" "done"] :=
  ⟨fun _ => rfl, by decide,
   (success_log_lines (Env.mk id (fun _ => NavResult.ok)) (fun _ => rfl) "#funny" 0).2.1,
   (success_log_lines (Env.mk id (fun _ => NavResult.ok)) (fun _ => rfl) ""
      123456789).2.2.2.1 (by decide)⟩

/-- C10: when the browser fails with `E`, each operation logs after the intent
line exactly three lines, in this order: an error line under its own tag with
`E` converted to text, `docs("api", tag)`, and
`stackoverflow(tag, "puppeteer", E)`; no echo and no `done` line is logged; and
under any logger the value returned is the one returned under the logger that
does nothing. -/
theorem failure_log_lines (env : Env) (E : JsVal) (h : ∀ url, env.goto url = .fails E)
    (s : String) (n : Int) {σ : Type} (L : Logger σ) (s0 : σ) :
    ((observe (post recorder env (.str s))).logs
      = [.info "goto::post()" (env.translate "try_goto_post_page"),
         .error "goto::post()" (jsToString E),
         .docs "api" "goto::post()",
         .stackoverflow "goto::post()" "puppeteer" E] ∧
     (observe (hashtag recorder env (.str s))).logs
      = [.info "goto::hashtag()" (env.translate "try_goto_hashtag_page"),
         .error "goto::hashtag()" (jsToString E),
         .docs "api" "goto::hashtag()",
         .stackoverflow "goto::hashtag()" "puppeteer" E] ∧
     (observe (location recorder env (.num n))).logs
      = [.info "goto::location()" (env.translate "try_goto_gps_page"),
         .error "goto::location()" (jsToString E),
         .docs "api" "goto::location()",
         .stackoverflow "goto::location()" "puppeteer" E] ∧
     (observe (location recorder env (.str s))).logs
      = [.info "goto::location()" (env.translate "try_goto_gps_page"),
         .error "goto::location()" (jsToString E),
         .docs "api" "goto::location()",
         .stackoverflow "goto::location()" "puppeteer" E] ∧
     (observe (profile recorder env (.str s))).logs
      = [.info "goto::profile()" (env.translate "try_goto_profile_page"),
         .error "goto::profile()" (jsToString E),
         .docs "api" "goto::profile()",
         .stackoverflow "goto::profile()" "puppeteer" E] ∧
     (observe (login recorder env)).logs
      = [.info "goto::login()" (env.translate "try_goto_login_page"),
         .error "goto::login()" (jsToString E),
         .docs "api" "goto::login()",
         .stackoverflow "goto::login()" "puppeteer" E]) ∧
    (outcome (post L env (.str s)) s0 = outcome (post silent env (.str s)) () ∧
     outcome (hashtag L env (.str s)) s0 = outcome (hashtag silent env (.str s)) () ∧
     outcome (location L env (.num n)) s0 = outcome (location silent env (.num n)) () ∧
     outcome (location L env (.str s)) s0 = outcome (location silent env (.str s)) () ∧
     outcome (profile L env (.str s)) s0 = outcome (profile silent env (.str s)) () ∧
     outcome (login L env) s0 = outcome (login silent env) ()) := by
  refine ⟨⟨?_, ?_, ?_, ?_, ?_, ?_⟩, ⟨?_, ?_, ?_, ?_, ?_, ?_⟩⟩
  · simp [observe, post_run_fails _ _ _ _ _ (h _), recorder]
  · simp [observe, hashtag_run_fails _ _ _ _ _ (h _), recorder]
  · simp [observe, location_run_fails _ _ _ _ _ (h _), recorder]
  · simp [observe, location_run_fails _ _ _ _ _ (h _), recorder]
  · simp [observe, profile_run_fails _ _ _ _ _ (h _), recorder]
  · simp [observe, login_run_fails _ _ _ _ (h _), recorder]
  · simp [outcome, post_run_fails _ _ _ _ _ (h _)]
  · simp [outcome, hashtag_run_fails _ _ _ _ _ (h _)]
  · simp [outcome, location_run_fails _ _ _ _ _ (h _)]
  · simp [outcome, location_run_fails _ _ _ _ _ (h _)]
  · simp [outcome, profile_run_fails _ _ _ _ _ (h _)]
  · simp [outcome, login_run_fails _ _ _ _ (h _)]

/-- Witness of C10: `login` with a browser that fails with
`"net::ERR_TIMED_OUT"`. -/
theorem failure_log_lines_witness :
    (∀ url, (Env.mk id (fun _ => NavResult.fails (.str "net::ERR_TIMED_OUT"))).goto url
        = .fails (.str "net::ERR_TIMED_OUT")) ∧
    (observe (login recorder
        (Env.mk id (fun _ => NavResult.fails (.str "net::ERR_TIMED_OUT"))))).logs
      = [.info "goto::login()" "try_goto_login_page",
         .error "goto::login()" "net::ERR_TIMED_OUT",
         .docs "api" "goto::login()",
         .stackoverflow "goto::login()" "puppeteer" (.str "net::ERR_TIMED_OUT")] :=
  ⟨fun _ => rfl,
   (failure_log_lines (Env.mk id (fun _ => NavResult.fails (.str "net::ERR_TIMED_OUT")))
      (.str "net::ERR_TIMED_OUT") (fun _ => rfl) "" 0 silent ()).1.2.2.2.2.2⟩

end Goto

namespace Routes

/-- Counterexample to C8: reading the key `"nonexistent_mode"` throws nothing, it
gives `undefined`; reading `"toString"` gives a value, the member inherited
from `Object.prototype`. -/
theorem unknown_key_reads_undefined :
    lookup "nonexistent_mode" = .ok .undefined ∧
    lookup "nonexistent_mode" ≠ .error .UnknownModeError ∧
    lookup "toString" = .ok (.inherited "toString") :=
  ⟨rfl, (by rw [show lookup "nonexistent_mode" = .ok .undefined from rfl]; simp), rfl⟩

/-- C8 as amended: a lookup gives the registered implementation exactly when the
key is `"Likemode_friendsfeed_realistic"`; for every other key it throws nothing
and gives no implementation and no default strategy: when the key names a member
inherited from `Object.prototype` (`"toString"` for one) that member is read,
and for every key left (`"nonexistent_mode"` for one) the lookup gives
`undefined`. -/
theorem lookup_spec (key : String) :
    (lookup key = .ok (.required "../modes/likemode_friendsfeed_realistic")
      ↔ key = "Likemode_friendsfeed_realistic") ∧
    (∃ e, lookup key = .ok e) ∧
    (∀ path, lookup key = .ok (.required path) → key = "Likemode_friendsfeed_realistic") ∧
    (key ∈ objectPrototypeNames → lookup key = .ok (.inherited key)) ∧
    (key ≠ "Likemode_friendsfeed_realistic" → key ∉ objectPrototypeNames →
      lookup key = .ok .undefined) ∧
    (lookup key = .ok .undefined ↔
      key ≠ "Likemode_friendsfeed_realistic" ∧ key ∉ objectPrototypeNames) ∧
    lookup "nonexistent_mode" = .ok .undefined ∧
    lookup "toString" = .ok (.inherited "toString") := by
  by_cases hk : key = "Likemode_friendsfeed_realistic"
  · subst hk
    have hl : lookup "Likemode_friendsfeed_realistic"
        = .ok (.required "../modes/likemode_friendsfeed_realistic") := rfl
    have hnp : "Likemode_friendsfeed_realistic" ∉ objectPrototypeNames := by decide
    refine ⟨?_, ?_, ?_, ?_, ?_, ?_, rfl, rfl⟩
    · simp [hl]
    · exact ⟨_, hl⟩
    · intro _ _; rfl
    · intro hp; exact absurd hp hnp
    · intro hne; exact absurd rfl hne
    · simp [hl]
  · have hb : (key == "Likemode_friendsfeed_realistic") = false := by simpa using hk
    by_cases hp : key ∈ objectPrototypeNames
    · have hl : lookup key = .ok (.inherited key) := by
        simp [lookup, modes, List.lookup, hb, hp]
      refine ⟨?_, ?_, ?_, ?_, ?_, ?_, rfl, rfl⟩
      · simp [hl, hk]
      · exact ⟨_, hl⟩
      · intro path hpath; rw [hl] at hpath; simp at hpath
      · intro _; exact hl
      · intro _ hn; exact absurd hp hn
      · simp [hl, hp]
    · have hl : lookup key = .ok .undefined := by
        simp [lookup, modes, List.lookup, hb, hp]
      refine ⟨?_, ?_, ?_, ?_, ?_, ?_, rfl, rfl⟩
      · simp [hl, hk]
      · exact ⟨_, hl⟩
      · intro path hpath; rw [hl] at hpath; simp at hpath
      · intro hp2; exact absurd hp2 hp
      · intro _ _; exact hl
      · simp [hl, hp, hk]

/-- Witness of C8 as amended: the keys `"nonexistent_mode"` and `"toString"`. -/
theorem lookup_spec_witness :
    "nonexistent_mode" ≠ "Likemode_friendsfeed_realistic" ∧
    "nonexistent_mode" ∉ objectPrototypeNames ∧
    lookup "nonexistent_mode" = .ok .undefined ∧
    "toString" ∈ objectPrototypeNames ∧
    lookup "toString" = .ok (.inherited "toString") :=
  ⟨by decide, by decide,
   (lookup_spec "nonexistent_mode").2.2.2.2.1 (by decide) (by decide),
   by decide,
   (lookup_spec "toString").2.2.2.1 (by decide)⟩

end Routes
